import Mathlib

/-
Shallow embedding of src/main.py (ollama-feed-summarizer), a single-run
batch job: read a list of feed URLs, fetch and validate each feed, build
articles through a field-fallback chain, summarize each article through an
Ollama chat call, render a markdown digest, rewrite the active and
quarantine feed lists, and optionally build a plain-text narration for a
text-to-speech call.  Network and model behaviour is represented by
explicit outcome oracles; file writes are represented by the lists and
strings the program would write.
-/

namespace OllamaFeedSummarizer

/- ---------------------------------------------------------------------
   Python string primitives used by main.py, modelled on `List Char`.
   --------------------------------------------------------------------- -/

/-- Python `str.strip()` on a character list: drop leading and trailing
whitespace. -/
def stripChars (l : List Char) : List Char :=
  ((l.dropWhile Char.isWhitespace).reverse.dropWhile Char.isWhitespace).reverse

/-- Python `str.strip()` on a string. -/
def pyStrip (s : String) : String :=
  ⟨stripChars s.data⟩

/-- Worker for Python `str.replace`: leftmost, non-overlapping replacement
of `pat` by `rep`.  The fuel argument bounds the recursion; every step
consumes at least one character of the subject, so fuel equal to the
subject length never runs out for the non-empty patterns main.py uses. -/
def replaceAux (pat rep : List Char) : Nat → List Char → List Char
  | _, [] => []
  | 0, s => s
  | Nat.succ fuel, c :: cs =>
    if !pat.isEmpty && pat.isPrefixOf (c :: cs) then
      rep ++ replaceAux pat rep fuel ((c :: cs).drop pat.length)
    else
      c :: replaceAux pat rep fuel cs

/-- Python `s.replace(pat, rep)` for the non-empty patterns used in
main.py. -/
def pyReplace (s pat rep : String) : String :=
  ⟨replaceAux pat.data rep.data s.data.length s.data⟩

/-- Python `s.split('\n')`: split a character list at newline characters,
keeping empty segments. -/
def splitLines : List Char → List (List Char)
  | [] => [[]]
  | c :: cs =>
    let rest := splitLines cs
    if c = '\n' then [] :: rest
    else
      match rest with
      | [] => [[c]]
      | l :: ls => (c :: l) :: ls

/- ---------------------------------------------------------------------
   Data model: feed entries and articles (main.py lines 57-68).
   --------------------------------------------------------------------- -/

/-- One raw feed entry as seen through feedparser's `entry.get` calls:
each field is absent (`none`) or a string; `content`, when present, is a
list of content blocks whose `value` key may itself be absent. -/
structure Entry where
  summary : Option String
  description : Option String
  content : Option (List (Option String))
  title : Option String
  link : Option String
deriving DecidableEq

/-- A validated article (main.py lines 64-68). -/
structure Article where
  title : String
  link : String
  content : String
deriving DecidableEq

/-- The content fallback chain of main.py lines 58-61:
`entry.get('summary') or entry.get('description') or
 entry.get('content', [{}])[0].get('value', '') or entry.get('title', '')`.
Python's `or` takes the first truthy (non-empty) string and evaluates
lazily, so the content-block subscript runs only when summary and
description are falsy; subscripting an empty present content list raises
IndexError, modelled as `Except.error`. -/
def selectContent (e : Entry) : Except Unit String :=
  let s := e.summary.getD ""
  if s ≠ "" then .ok s
  else
    let d := e.description.getD ""
    if d ≠ "" then .ok d
    else
      match e.content with
      | some [] => .error ()
      | some (b :: _) =>
        let v := b.getD ""
        if v ≠ "" then .ok v else .ok (e.title.getD "")
      | none => .ok (e.title.getD "")

/-- The per-entry body of the validation loop (main.py lines 58-68): pick
content by the fallback chain, keep the entry only when the content has a
non-whitespace character (`if content.strip():`). -/
def validateEntry (e : Entry) : Except Unit (Option Article) :=
  match selectContent e with
  | .error u => .error u
  | .ok content =>
    if pyStrip content ≠ "" then
      .ok (some ⟨e.title.getD "Untitled", e.link.getD "No URL available", content⟩)
    else
      .ok none

/-- The validation loop over the first `num_articles` entries already
taken (main.py lines 57-68); an exception anywhere aborts the whole loop. -/
def extractValid : List Entry → Except Unit (List Article)
  | [] => .ok []
  | e :: es =>
    match validateEntry e with
    | .error u => .error u
    | .ok a? =>
      match extractValid es with
      | .error u => .error u
      | .ok rest =>
        match a? with
        | some a => .ok (a :: rest)
        | none => .ok rest

/-- Outcome of one `requests.get` plus `feedparser.parse` round trip for a
fixed URL: a timeout, another transport or HTTP error raised as a
RequestException, some other unexpected exception, or a parsed feed
carrying its bozo flag and entry list. -/
inductive FetchOutcome where
  | timeout
  | requestError
  | otherError
  | parsed (bozo : Bool) (entries : List Entry)

/-- `fetch_and_validate_feed` (main.py lines 43-79) as a function of the
fetch outcome: every failure class returns `none`; a well-formed feed
yields its validated articles, with `valid_entries if valid_entries else
None` collapsing an empty result to `none`; an exception while validating
entries is caught by the blanket `except Exception` and also yields
`none`. -/
def fetchAndValidateFeed (o : FetchOutcome) (numArticles : Nat) : Option (List Article) :=
  match o with
  | .timeout => none
  | .requestError => none
  | .otherError => none
  | .parsed bozo entries =>
    if bozo then none
    else
      match extractValid (entries.take numArticles) with
      | .error _ => none
      | .ok valid => if valid.isEmpty then none else some valid

/- ---------------------------------------------------------------------
   Model provisioning (main.py lines 81-96, 171-175).
   --------------------------------------------------------------------- -/

/-- Outcome of the probe `ollama_client.chat` call in
`ensure_model_available`: success, a ResponseError with a status code, or
any other exception. -/
inductive ProbeOutcome where
  | ok
  | respError (status : Nat)
  | otherFailure
deriving DecidableEq

/-- Outcome of the `ollama_client.pull` call. -/
inductive PullOutcome where
  | ok
  | fail
deriving DecidableEq

/-- `ensure_model_available` (main.py lines 81-96): a ResponseError with
status 404 triggers a pull, whose failure re-raises; any other probe
failure propagates (a non-404 ResponseError is re-raised explicitly, any
other exception is uncaught).  `Except.error` stands for an exception
reaching the caller. -/
def ensureModelAvailable (probe : ProbeOutcome) (pull : PullOutcome) : Except Unit Unit :=
  match probe with
  | .ok => .ok ()
  | .respError status =>
    if status = 404 then
      match pull with
      | .ok => .ok ()
      | .fail => .error ()
    else
      .error ()
  | .otherFailure => .error ()

/- ---------------------------------------------------------------------
   Summarization (main.py lines 98-132).
   --------------------------------------------------------------------- -/

/-- The f-string prompt of `summarize_article` (main.py lines 100-113),
with the article content interpolated. -/
def userPrompt (content : String) : String :=
  "## INSTRUCTION\n    \n    Respond with 1-2 sentences that summarize the key message of this article:\n\n    ## ARTICLE\n    \n    " ++ content ++ "\n\n    ## RULES\n\n    - DO NOT INCLUDE ANYTHING OTHER THAN THE SUMMARY IN YOUR RESPONSE\n    - DO NOT ADD ANY TEXT BEFORE OR AFTER THE SUMMARY\n    - ONLY RESPOND WITH THE ARTICLE SUMMARY\n    "

/-- The response post-processing of main.py lines 123-125: split the raw
response on newlines, strip each line, keep non-empty lines, rejoin with
newlines. -/
def formatSummary (raw : String) : String :=
  String.intercalate "\n"
    (((splitLines raw.data).map (fun l => (⟨stripChars l⟩ : String))).filter
      (fun l => l != ""))

/-- `summarize_article` (main.py lines 98-132): one chat call on the
prompt built from the article content; `none` models the ResponseError /
unexpected-exception branches that return None. -/
def summarizeArticle (callModel : String → Option String) (a : Article) : Option String :=
  match callModel (userPrompt a.content) with
  | some raw => some (formatSummary raw)
  | none => none

/- ---------------------------------------------------------------------
   The per-feed and per-article loops of main (main.py lines 182-196).
   --------------------------------------------------------------------- -/

/-- The lists accumulated by the inner article loop: digest blocks,
text-to-speech lines, and warning log lines. -/
structure ArticleLoopResult where
  summaries : List String
  ttsSummaries : List String
  warnings : List String
deriving DecidableEq

/-- The article loop of main.py lines 187-193: a summary that is None or
empty (`if summary:`) logs a warning naming the article; otherwise a
digest block and a text-to-speech line are appended. -/
def processArticles (callModel : String → Option String) : List Article → ArticleLoopResult
  | [] => ⟨[], [], []⟩
  | a :: rest =>
    let r := processArticles callModel rest
    match summarizeArticle callModel a with
    | some s =>
      if s ≠ "" then
        ⟨("## " ++ a.title ++ "\n\n" ++ s ++ "\n\n" ++ a.link ++ "\n\n") :: r.summaries,
         (a.title ++ ". " ++ s) :: r.ttsSummaries,
         r.warnings⟩
      else
        ⟨r.summaries, r.ttsSummaries,
         ("Failed to summarize article: " ++ a.title) :: r.warnings⟩
    | none =>
      ⟨r.summaries, r.ttsSummaries,
       ("Failed to summarize article: " ++ a.title) :: r.warnings⟩

/-- The accumulated state of the feed loop: digest blocks, text-to-speech
lines, quarantined feed URLs, and warning log lines. -/
structure RunLists where
  summaries : List String
  ttsSummaries : List String
  removedFeeds : List String
  warnings : List String
deriving DecidableEq

/-- One iteration of the feed loop (main.py lines 182-196) for one URL:
`if articles:` is Python truthiness, so both None and an empty list send
the feed to `removed_feeds` with a warning. -/
def processFeed (fetch : String → FetchOutcome) (callModel : String → Option String)
    (numArticles : Nat) (url : String) : RunLists :=
  match fetchAndValidateFeed (fetch url) numArticles with
  | some (a :: rest) =>
    let r := processArticles callModel (a :: rest)
    ⟨r.summaries, r.ttsSummaries, [], r.warnings⟩
  | some [] => ⟨[], [], [url], ["No valid content found for feed: " ++ url]⟩
  | none => ⟨[], [], [url], ["No valid content found for feed: " ++ url]⟩

/-- The whole feed loop of main.py lines 182-196, in source order. -/
def runFeeds (fetch : String → FetchOutcome) (callModel : String → Option String)
    (numArticles : Nat) : List String → RunLists
  | [] => ⟨[], [], [], []⟩
  | u :: us =>
    let r := processFeed fetch callModel numArticles u
    let rest := runFeeds fetch callModel numArticles us
    ⟨r.summaries ++ rest.summaries, r.ttsSummaries ++ rest.ttsSummaries,
     r.removedFeeds ++ rest.removedFeeds, r.warnings ++ rest.warnings⟩

/-- The rewritten active list of main.py line 199:
`[f for f in feeds if f not in removed_feeds]`. -/
def newActiveFeeds (feeds removedFeeds : List String) : List String :=
  feeds.filter (fun f => decide (¬ f ∈ removedFeeds))

/- ---------------------------------------------------------------------
   Date formatting (main.py lines 203-207) and digest rendering.
   --------------------------------------------------------------------- -/

/-- A calendar date, standing for `datetime.now()`. -/
structure Date where
  year : Nat
  month : Nat
  day : Nat
deriving DecidableEq

/-- Day of the week (0 = Sunday) by Sakamoto's method, modelling the
weekday underlying strftime's `%A`. -/
def weekdayNumber (d : Date) : Nat :=
  let offsets := [0, 3, 2, 5, 0, 3, 5, 1, 4, 6, 2, 4]
  let y := if d.month < 3 then d.year - 1 else d.year
  (y + y / 4 - y / 100 + y / 400 + offsets.getD (d.month - 1) 0 + d.day) % 7

def weekdayNames : List String :=
  ["Sunday", "Monday", "Tuesday", "Wednesday", "Thursday", "Friday", "Saturday"]

def monthNames : List String :=
  ["January", "February", "March", "April", "May", "June", "July",
   "August", "September", "October", "November", "December"]

/-- Two-digit zero padding, as in strftime `%d` and `%m`. -/
def pad2 (n : Nat) : String :=
  if n < 10 then "0" ++ toString n else toString n

/-- strftime `"%A, %B %d, %Y"` (main.py line 204). -/
def formatDateLong (d : Date) : String :=
  weekdayNames.getD (weekdayNumber d) "" ++ ", " ++
    monthNames.getD (d.month - 1) "" ++ " " ++ pad2 d.day ++ ", " ++ toString d.year

/-- strftime `"%Y-%m-%d"` (main.py lines 207, 224). -/
def isoDate (d : Date) : String :=
  toString d.year ++ "-" ++ pad2 d.month ++ "-" ++ pad2 d.day

/-- The digest file content written by main.py lines 208-210: the header
line, a blank line, then the digest blocks joined with newlines. -/
def renderDigest (d : Date) (summaries : List String) : String :=
  "# News for " ++ formatDateLong d ++ "\n\n" ++ String.intercalate "\n" summaries

/-- The markdown stripping applied to each text-to-speech line
(main.py line 221): the chained
`.replace("#", "").replace("##", "").replace("###", "").replace("\n\n", " ")`. -/
def stripMarkdown (s : String) : String :=
  pyReplace (pyReplace (pyReplace (pyReplace s "#" "") "##" "") "###" "") "\n\n" " "

/-- The narration string `tts_str` of main.py lines 218-223. -/
def buildNarration (d : Date) (ttsSummaries : List String) : String :=
  "News for " ++ formatDateLong d ++ ":\n\n" ++
    String.intercalate "\n" (ttsSummaries.map stripMarkdown)

/- ---------------------------------------------------------------------
   The whole run (main.py lines 163-232).
   --------------------------------------------------------------------- -/

/-- Why a run stops before writing any output: a model-provisioning
failure (main.py lines 171-175) or an empty feed list, where `read_feeds`
calls `sys.exit(1)` (main.py lines 29-31). -/
inductive AbortReason where
  | modelUnavailable
  | noFeeds
deriving DecidableEq

/-- The durable outputs of one completed run: the rewritten active feeds
file, the overwritten quarantine file, the digest file content (with the
audio link appended when text-to-speech succeeds), and the narration text
handed to the text-to-speech call, when built. -/
structure RunOutput where
  feedsFileContent : List String
  quarantineFileContent : List String
  digestFileContent : String
  narrationText : Option String
deriving DecidableEq

/-- The oracles and configuration of one run of `main`. -/
structure RunInput where
  probe : ProbeOutcome
  pull : PullOutcome
  fetch : String → FetchOutcome
  callModel : String → Option String
  numArticles : Nat
  feeds : List String
  date : Date
  ttsEnabled : Bool
  ttsSuccess : Bool

/-- `main` (main.py lines 163-232).  The second argument is the content
of the quarantine file before the run; main never reads that file and
`write_feeds` opens it with mode "w", so the body does not consult it.
An `Except.error` result means the run aborted before writing anything. -/
def mainRun (i : RunInput) (_priorQuarantine : List String) : Except AbortReason RunOutput :=
  match ensureModelAvailable i.probe i.pull with
  | .error _ => .error .modelUnavailable
  | .ok _ =>
    if i.feeds.isEmpty then .error .noFeeds
    else
      let r := runFeeds i.fetch i.callModel i.numArticles i.feeds
      let digest := renderDigest i.date r.summaries
      if i.ttsEnabled then
        let narration := buildNarration i.date r.ttsSummaries
        let finalDigest :=
          if i.ttsSuccess then
            digest ++ "[Listen to the audio summary](" ++ isoDate i.date ++ "_feed-summaries.mp3)"
          else digest
        .ok ⟨newActiveFeeds i.feeds r.removedFeeds, r.removedFeeds, finalDigest, some narration⟩
      else
        .ok ⟨newActiveFeeds i.feeds r.removedFeeds, r.removedFeeds, digest, none⟩

/-- The quarantine file content a run result leaves on disk, `none` when
the run aborted before the write. -/
def quarantineFileOf : Except AbortReason RunOutput → Option (List String)
  | .ok o => some o.quarantineFileContent
  | .error _ => none

/-- The digest file content a run result leaves on disk, `none` when the
run aborted before the write. -/
def writtenDigestOf : Except AbortReason RunOutput → Option String
  | .ok o => some o.digestFileContent
  | .error _ => none

/-- The narration text a run result hands to the text-to-speech call. -/
def narrationOf : Except AbortReason RunOutput → Option String
  | .ok o => o.narrationText
  | .error _ => none

/- ---------------------------------------------------------------------
   Spec-side definitions for the extraction-refinement claim, following
   the spec's words: the fields of an entry in the priority order
   summary, description, first content-block value, title, and the first
   non-empty one.
   --------------------------------------------------------------------- -/

/-- Spec-side reading of "first content-block value": the value of the
first content block, empty when there is none. -/
def specFirstContentValue (e : Entry) : String :=
  match e.content with
  | none => ""
  | some [] => ""
  | some (b :: _) => b.getD ""

/-- Spec-side field chain in the spec's priority order. -/
def specFieldChain (e : Entry) : List String :=
  [e.summary.getD "", e.description.getD "", specFirstContentValue e, e.title.getD ""]

/-- Spec-side "first non-empty": the first string in a list that is not
the empty string. -/
def firstNonEmptyField : List String → Option String
  | [] => none
  | f :: fs => if f = "" then firstNonEmptyField fs else some f

/-- Spec-side "first non-empty field in the priority order". -/
def specFirstNonEmpty (e : Entry) : Option String :=
  firstNonEmptyField (specFieldChain e)

/- ---------------------------------------------------------------------
   Concrete inputs used to exercise the theorems below.
   --------------------------------------------------------------------- -/

/-- An entry whose summary field is an ordinary non-empty string. -/
def eC1good : Entry := ⟨some "Hello world", none, none, some "T", some "http://x"⟩

/-- An entry whose summary field is a single space: non-empty, so the
fallback chain selects it, but all-whitespace, so the entry is dropped. -/
def eC1ws : Entry := ⟨some " ", none, none, some "T", none⟩

/-- A fetch oracle with one healthy feed and every other URL timing out. -/
def wFetch : String → FetchOutcome := fun u =>
  if u = "http://good" then .parsed false [⟨some "Body", none, none, some "T", none⟩]
  else .timeout

/-- A model oracle that always answers. -/
def wModel : String → Option String := fun _ => some "S"

/-- A fetch oracle under which every feed times out. -/
def dupFetch : String → FetchOutcome := fun _ => .timeout

/-- A model oracle that always fails. -/
def dupModel : String → Option String := fun _ => none

/-- A fetch oracle where exactly one URL times out. -/
def c4Fetch : String → FetchOutcome := fun u =>
  if u = "http://bad" then .timeout
  else .parsed false [⟨some "Body", none, none, some "T", none⟩]

/-- A model oracle that always answers. -/
def c4Model : String → Option String := fun _ => some "S"

/-- A run whose model probe reports status 404 and whose pull succeeds. -/
def iC5 : RunInput :=
  ⟨.respError 404, .ok, fun _ => .timeout, fun _ => none, 3, ["http://u"], ⟨2024, 3, 15⟩,
   false, false⟩

/-- A run whose model probe reports status 404 and whose pull fails. -/
def iC5b : RunInput :=
  ⟨.respError 404, .fail, fun _ => .timeout, fun _ => none, 3, ["http://u"], ⟨2024, 3, 15⟩,
   false, false⟩

/-- A model oracle that answers "Sx" exactly to the prompt built from
article content "x" and fails on everything else. -/
def c6CallModel : String → Option String :=
  fun s => if s = userPrompt "x" then some "Sx" else none

def articleA : Article := ⟨"A", "http://a", "x"⟩

def articleB : Article := ⟨"B", "http://b", "y"⟩

/-- A run with text-to-speech enabled. -/
def iC10 : RunInput :=
  ⟨.ok, .ok, fun _ => .timeout, fun _ => none, 3, ["http://u"], ⟨2024, 3, 15⟩, true, true⟩

/- ---------------------------------------------------------------------
   Helper lemmas.
   --------------------------------------------------------------------- -/

set_option maxRecDepth 40000

/-- When the fallback chain returns a value that is not the empty string,
that value is the spec-side first non-empty field of the entry. -/
theorem selectContent_spec (e : Entry) (c : String)
    (h1 : selectContent e = .ok c) (hc : c ≠ "") :
    specFirstNonEmpty e = some c := by
  simp only [selectContent] at h1
  simp only [specFirstNonEmpty, specFieldChain, specFirstContentValue, firstNonEmptyField]
  by_cases hs : e.summary.getD "" = ""
  · simp only [hs, ne_eq, not_true_eq_false, if_false, if_true, reduceIte] at h1 ⊢
    by_cases hd : e.description.getD "" = ""
    · simp only [hd, ne_eq, not_true_eq_false, if_false, if_true, reduceIte] at h1 ⊢
      cases hco : e.content with
      | none =>
        simp only [hco] at h1
        cases h1
        simp [hc]
      | some bs =>
        cases bs with
        | nil => simp [hco] at h1
        | cons b rest =>
          simp only [hco] at h1
          by_cases hv : b.getD "" = ""
          · simp only [hv, ne_eq, not_true_eq_false, if_false, reduceIte] at h1 ⊢
            cases h1
            simp [hc]
          · simp only [ne_eq, hv, not_false_eq_true, if_true, reduceIte] at h1 ⊢
            cases h1
            simp [hv]
    · simp only [ne_eq, hd, not_false_eq_true, if_true, reduceIte] at h1 ⊢
      cases h1
      simp [hd]
  · simp only [ne_eq, hs, not_false_eq_true, if_true, reduceIte] at h1 ⊢
    cases h1
    simp [hs]

/-- An entry whose selected content has a non-whitespace character is
turned into exactly one Article carrying that content. -/
theorem extractValid_single (e : Entry) (c : String)
    (h1 : selectContent e = .ok c) (h2 : pyStrip c ≠ "") :
    extractValid [e] = .ok [⟨e.title.getD "Untitled", e.link.getD "No URL available", c⟩] := by
  simp [extractValid, validateEntry, h1, h2]

/-- One feed-loop iteration puts either nothing or exactly its own URL
into the quarantine list. -/
theorem processFeed_removed_cases (fetch : String → FetchOutcome)
    (callModel : String → Option String) (n : Nat) (u : String) :
    (processFeed fetch callModel n u).removedFeeds = [] ∨
      (processFeed fetch callModel n u).removedFeeds = [u] := by
  unfold processFeed
  cases fetchAndValidateFeed (fetch u) n with
  | none => right; rfl
  | some l =>
    cases l with
    | nil => right; rfl
    | cons a rest => left; rfl

/-- A URL is in the quarantine list of a run exactly when it is one of
the input feeds and its own iteration quarantines it. -/
theorem mem_removedFeeds_iff (fetch : String → FetchOutcome)
    (callModel : String → Option String) (n : Nat) (feeds : List String) (u : String) :
    u ∈ (runFeeds fetch callModel n feeds).removedFeeds ↔
      u ∈ feeds ∧ (processFeed fetch callModel n u).removedFeeds = [u] := by
  induction feeds with
  | nil => simp [runFeeds]
  | cons v us ih =>
    simp only [runFeeds, List.mem_append, ih, List.mem_cons]
    rcases processFeed_removed_cases fetch callModel n v with h | h
    · rw [h]
      constructor
      · rintro (hfalse | ⟨hmem, hpf⟩)
        · simp at hfalse
        · exact ⟨Or.inr hmem, hpf⟩
      · rintro ⟨hv | hmem, hpf⟩
        · subst hv
          rw [h] at hpf
          simp at hpf
        · exact Or.inr ⟨hmem, hpf⟩
    · rw [h]
      constructor
      · rintro (hv | ⟨hmem, hpf⟩)
        · simp at hv
          subst hv
          exact ⟨Or.inl rfl, h⟩
        · exact ⟨Or.inr hmem, hpf⟩
      · rintro ⟨hv | hmem, hpf⟩
        · subst hv
          exact Or.inl (by simp)
        · exact Or.inr ⟨hmem, hpf⟩

/-- The quarantine list of a run is a sublist of the input feeds, so its
order follows the input order. -/
theorem removedFeeds_sublist (fetch : String → FetchOutcome)
    (callModel : String → Option String) (n : Nat) (feeds : List String) :
    (runFeeds fetch callModel n feeds).removedFeeds.Sublist feeds := by
  induction feeds with
  | nil => simp [runFeeds]
  | cons v us ih =>
    rcases processFeed_removed_cases fetch callModel n v with h | h
    · simp only [runFeeds, h, List.nil_append]
      exact ih.cons v
    · simp only [runFeeds, h, List.cons_append, List.nil_append]
      exact ih.cons₂ v

/- ---------------------------------------------------------------------
   C1: content extraction follows the fallback chain.
   --------------------------------------------------------------------- -/

/-- C1 (amended): for every entry whose fallback-chain evaluation returns
a value (the content-block list is not consulted while empty) and whose
selected value contains a non-whitespace character, extraction yields
exactly one Article whose content equals the first non-empty field in the
priority order summary, description, first content-block value, title.
Entries whose selected value is empty or all-whitespace are dropped. -/
theorem extraction_fallback_chain (e : Entry) (c : String)
    (h1 : selectContent e = .ok c) (h2 : pyStrip c ≠ "") :
    specFirstNonEmpty e = some c ∧
      extractValid [e] =
        .ok [⟨e.title.getD "Untitled", e.link.getD "No URL available", c⟩] := by
  have hc : c ≠ "" := by
    intro h
    rw [h] at h2
    exact h2 rfl
  exact ⟨selectContent_spec e c h1 hc, extractValid_single e c h1 h2⟩

/-- C1 witness: an entry with summary "Hello world" produces exactly one
Article with that content. -/
theorem extraction_fallback_chain_witness :
    selectContent eC1good = .ok "Hello world" ∧ pyStrip "Hello world" ≠ "" ∧
      (specFirstNonEmpty eC1good = some "Hello world" ∧
        extractValid [eC1good] = .ok [⟨"T", "http://x", "Hello world"⟩]) :=
  ⟨rfl, by decide, extraction_fallback_chain eC1good "Hello world" rfl (by decide)⟩

/-- C1 counterexample: the entry with summary " " and title "T" has a
non-empty field, and its first non-empty field in the priority order is
" ", yet extraction yields zero Articles rather than exactly one, because
the code drops any entry whose selected content is all-whitespace without
falling through to the later fields. -/
theorem extraction_fallback_chain_counterexample :
    (∃ f ∈ specFieldChain eC1ws, f ≠ "") ∧
      specFirstNonEmpty eC1ws = some " " ∧
      extractValid [eC1ws] = .ok [] :=
  ⟨by decide, by decide, rfl⟩

/- ---------------------------------------------------------------------
   C2: the active/quarantine partition invariant.
   --------------------------------------------------------------------- -/

/-- C2 (amended): provided the input active-feed list has no duplicates,
the rewritten active list and the quarantine list written at end of run
partition the original list: their union equals it as sets, each list has
no duplicates, no URL is in both, and each list keeps the original
order. -/
theorem run_partition (fetch : String → FetchOutcome) (callModel : String → Option String)
    (n : Nat) (feeds : List String) (hnd : feeds.Nodup) :
    (∀ u, u ∈ feeds ↔
        (u ∈ newActiveFeeds feeds (runFeeds fetch callModel n feeds).removedFeeds ∨
         u ∈ (runFeeds fetch callModel n feeds).removedFeeds)) ∧
    (∀ u, ¬ (u ∈ newActiveFeeds feeds (runFeeds fetch callModel n feeds).removedFeeds ∧
             u ∈ (runFeeds fetch callModel n feeds).removedFeeds)) ∧
    (newActiveFeeds feeds (runFeeds fetch callModel n feeds).removedFeeds).Nodup ∧
    (runFeeds fetch callModel n feeds).removedFeeds.Nodup ∧
    (newActiveFeeds feeds (runFeeds fetch callModel n feeds).removedFeeds).Sublist feeds ∧
    (runFeeds fetch callModel n feeds).removedFeeds.Sublist feeds := by
  have hsub : (runFeeds fetch callModel n feeds).removedFeeds.Sublist feeds :=
    removedFeeds_sublist fetch callModel n feeds
  have hactsub :
      (newActiveFeeds feeds (runFeeds fetch callModel n feeds).removedFeeds).Sublist feeds :=
    List.filter_sublist feeds
  refine ⟨?_, ?_, hactsub.nodup hnd, hsub.nodup hnd, hactsub, hsub⟩
  · intro u
    constructor
    · intro hu
      by_cases h : u ∈ (runFeeds fetch callModel n feeds).removedFeeds
      · exact Or.inr h
      · exact Or.inl (List.mem_filter.mpr ⟨hu, by simpa using h⟩)
    · rintro (h | h)
      · exact hactsub.subset h
      · exact hsub.subset h
  · rintro u ⟨ha, hr⟩
    have h2 := (List.mem_filter.mp ha).2
    simp only [decide_eq_true_eq] at h2
    exact h2 hr

/-- C2 witness: a duplicate-free two-feed list, one healthy and one
timing out, satisfies the partition invariant. -/
theorem run_partition_witness :
    (["http://good", "http://bad"] : List String).Nodup ∧
    ((∀ u, u ∈ ["http://good", "http://bad"] ↔
        (u ∈ newActiveFeeds ["http://good", "http://bad"]
              (runFeeds wFetch wModel 3 ["http://good", "http://bad"]).removedFeeds ∨
         u ∈ (runFeeds wFetch wModel 3 ["http://good", "http://bad"]).removedFeeds)) ∧
    (∀ u, ¬ (u ∈ newActiveFeeds ["http://good", "http://bad"]
              (runFeeds wFetch wModel 3 ["http://good", "http://bad"]).removedFeeds ∧
             u ∈ (runFeeds wFetch wModel 3 ["http://good", "http://bad"]).removedFeeds)) ∧
    (newActiveFeeds ["http://good", "http://bad"]
      (runFeeds wFetch wModel 3 ["http://good", "http://bad"]).removedFeeds).Nodup ∧
    (runFeeds wFetch wModel 3 ["http://good", "http://bad"]).removedFeeds.Nodup ∧
    (newActiveFeeds ["http://good", "http://bad"]
      (runFeeds wFetch wModel 3 ["http://good", "http://bad"]).removedFeeds).Sublist
        ["http://good", "http://bad"] ∧
    (runFeeds wFetch wModel 3 ["http://good", "http://bad"]).removedFeeds.Sublist
      ["http://good", "http://bad"]) :=
  ⟨by decide, run_partition wFetch wModel 3 ["http://good", "http://bad"] (by decide)⟩

/-- C2 counterexample: when the same URL appears twice in the input list
and times out, the quarantine list written at end of run holds it twice,
so the outputs are not duplicate-free as the claim states for every
input list. -/
theorem run_partition_counterexample :
    (runFeeds dupFetch dupModel 1 ["http://u", "http://u"]).removedFeeds =
        ["http://u", "http://u"] ∧
      ¬ (runFeeds dupFetch dupModel 1 ["http://u", "http://u"]).removedFeeds.Nodup :=
  ⟨rfl, by decide⟩

/- ---------------------------------------------------------------------
   C3: the narration markdown-stripping transformation.
   --------------------------------------------------------------------- -/

/-- C3 counterexample: the stripping chain does not map
"## Title\n\nBody text" to "Title  Body text".  The first
`.replace("#", "")` deletes every number sign, leaving the space that
followed them, and the `"\n\n"` blank-line join becomes a single space,
so the true output keeps a leading space and has only one space between
"Title" and "Body". -/
theorem narration_strip_counterexample :
    stripMarkdown "## Title\n\nBody text" ≠ "Title  Body text" := by decide

/-- C3 (amended): the narration markdown-stripping transformation maps
"## Title\n\nBody text" to exactly " Title Body text". -/
theorem narration_strip_exact :
    stripMarkdown "## Title\n\nBody text" = " Title Body text" := by decide

/- ---------------------------------------------------------------------
   C4: failing feeds are quarantined, healthy feeds are kept.
   --------------------------------------------------------------------- -/

/-- C4: a feed whose fetch raises a timeout or transport error
contributes zero digest blocks and lands in the quarantine list; a feed
whose fetch yields validated articles is never put in the quarantine
list. -/
theorem feed_failure_quarantine (fetch : String → FetchOutcome)
    (callModel : String → Option String) (n : Nat) (feeds : List String) (u : String)
    (hu : u ∈ feeds) :
    ((fetch u = .timeout ∨ fetch u = .requestError) →
       (processFeed fetch callModel n u).summaries = [] ∧
       u ∈ (runFeeds fetch callModel n feeds).removedFeeds) ∧
    ((∃ a rest, fetchAndValidateFeed (fetch u) n = some (a :: rest)) →
       u ∉ (runFeeds fetch callModel n feeds).removedFeeds) := by
  constructor
  · intro h
    have hfv : fetchAndValidateFeed (fetch u) n = none := by
      rcases h with h | h <;> rw [h] <;> rfl
    have hpf : processFeed fetch callModel n u =
        ⟨[], [], [u], ["No valid content found for feed: " ++ u]⟩ := by
      unfold processFeed
      rw [hfv]
    exact ⟨by rw [hpf], (mem_removedFeeds_iff fetch callModel n feeds u).mpr ⟨hu, by rw [hpf]⟩⟩
  · rintro ⟨a, rest, hfv⟩ hmem
    have hpf := ((mem_removedFeeds_iff fetch callModel n feeds u).mp hmem).2
    unfold processFeed at hpf
    rw [hfv] at hpf
    simp at hpf

/-- C4 witness: with one URL timing out among two feeds, that URL is
quarantined with zero digest contribution. -/
theorem feed_failure_quarantine_witness :
    "http://bad" ∈ ["http://good", "http://bad"] ∧
      (((c4Fetch "http://bad" = .timeout ∨ c4Fetch "http://bad" = .requestError) →
          (processFeed c4Fetch c4Model 3 "http://bad").summaries = [] ∧
          "http://bad" ∈ (runFeeds c4Fetch c4Model 3 ["http://good", "http://bad"]).removedFeeds) ∧
       ((∃ a rest, fetchAndValidateFeed (c4Fetch "http://bad") 3 = some (a :: rest)) →
          "http://bad" ∉ (runFeeds c4Fetch c4Model 3 ["http://good", "http://bad"]).removedFeeds)) :=
  ⟨by decide,
   feed_failure_quarantine c4Fetch c4Model 3 ["http://good", "http://bad"] "http://bad"
     (by decide)⟩

/- ---------------------------------------------------------------------
   C5: model provisioning gates the run.
   --------------------------------------------------------------------- -/

/-- C5: when the probe reports error status 404 and the feed list is
non-empty, a successful pull lets the run complete, while a failed pull
aborts the run with no digest output written. -/
theorem model_provisioning_gate (i : RunInput) (q : List String)
    (hp : i.probe = .respError 404) (hf : i.feeds ≠ []) :
    (i.pull = .ok → ∃ out, mainRun i q = .ok out) ∧
    (i.pull = .fail → mainRun i q = .error .modelUnavailable ∧
      writtenDigestOf (mainRun i q) = none) := by
  have hne : i.feeds.isEmpty = false := by
    cases hfe : i.feeds with
    | nil => exact absurd hfe hf
    | cons a l => rfl
  constructor
  · intro hpull
    unfold mainRun ensureModelAvailable
    rw [hp, hpull]
    simp only [reduceIte, hne, Bool.false_eq_true, if_false]
    cases ht : i.ttsEnabled with
    | true =>
      cases hs : i.ttsSuccess with
      | true => exact ⟨_, rfl⟩
      | false => exact ⟨_, rfl⟩
    | false => exact ⟨_, rfl⟩
  · intro hpull
    unfold mainRun ensureModelAvailable
    rw [hp, hpull]
    exact ⟨rfl, rfl⟩

/-- C5 witness: a 404 probe with a successful pull completes the run; a
404 probe with a failed pull aborts with no digest written. -/
theorem model_provisioning_gate_witness :
    (iC5.probe = .respError 404 ∧ iC5.feeds ≠ [] ∧
      (iC5.pull = .ok → ∃ out, mainRun iC5 [] = .ok out)) ∧
    (iC5b.probe = .respError 404 ∧ iC5b.feeds ≠ [] ∧
      (iC5b.pull = .fail → mainRun iC5b [] = .error .modelUnavailable ∧
        writtenDigestOf (mainRun iC5b []) = none)) :=
  ⟨⟨rfl, by decide, (model_provisioning_gate iC5 [] rfl (by decide)).1⟩,
   ⟨rfl, by decide, (model_provisioning_gate iC5b [] rfl (by decide)).2⟩⟩

/- ---------------------------------------------------------------------
   C6: a per-article summarization failure is isolated.
   --------------------------------------------------------------------- -/

/-- C6: with articles A (content "x") and B (content "y") and a model
that returns "Sx" for the prompt built from "x" and fails for "y", the
digest contains exactly the block for A carrying "Sx" and no block for B,
and the warning log names B; the failure neither aborts the loop nor
drops A. -/
theorem summarize_failure_isolated :
    processArticles c6CallModel [articleA, articleB] =
      ⟨["## A\n\nSx\n\nhttp://a\n\n"], ["A. Sx"], ["Failed to summarize article: B"]⟩ ∧
    renderDigest ⟨2024, 3, 15⟩ (processArticles c6CallModel [articleA, articleB]).summaries =
      "# News for Friday, March 15, 2024\n\n## A\n\nSx\n\nhttp://a\n\n" :=
  ⟨by decide, by decide⟩

/- ---------------------------------------------------------------------
   C7: the digest header line.
   --------------------------------------------------------------------- -/

/-- C7: for the run date 2024-03-15 the formatted date is exactly
"Friday, March 15, 2024", and for any digest blocks the rendered digest
starts with the line "# News for Friday, March 15, 2024" followed by a
blank line. -/
theorem digest_header_friday :
    formatDateLong ⟨2024, 3, 15⟩ = "Friday, March 15, 2024" ∧
    ∀ summaries : List String, ∃ rest,
      renderDigest ⟨2024, 3, 15⟩ summaries = "# News for Friday, March 15, 2024\n\n" ++ rest :=
  ⟨rfl, fun ss => ⟨String.intercalate "\n" ss, rfl⟩⟩

/- ---------------------------------------------------------------------
   C8: the three soft-failure classes of fetching.
   --------------------------------------------------------------------- -/

/-- C8: a fetch that times out, raises a transport error, or parses with
the bozo flag set returns no content to the caller instead of raising, so
one unreachable feed never aborts the pipeline. -/
theorem soft_failures_yield_no_content (n : Nat) (o : FetchOutcome)
    (h : o = .timeout ∨ o = .requestError ∨ ∃ entries, o = .parsed true entries) :
    fetchAndValidateFeed o n = none := by
  rcases h with h | h | ⟨es, h⟩ <;> rw [h] <;> rfl

/-- C8 witness: a timeout yields no content. -/
theorem soft_failures_yield_no_content_witness :
    (FetchOutcome.timeout = FetchOutcome.timeout ∨
      FetchOutcome.timeout = FetchOutcome.requestError ∨
      ∃ entries, FetchOutcome.timeout = FetchOutcome.parsed true entries) ∧
      fetchAndValidateFeed FetchOutcome.timeout 3 = none :=
  ⟨Or.inl rfl, soft_failures_yield_no_content 3 FetchOutcome.timeout (Or.inl rfl)⟩

/- ---------------------------------------------------------------------
   C9: the quarantine file is overwritten, never read.
   --------------------------------------------------------------------- -/

/-- C9: the run never reads the previous quarantine file content — the
result is the same for any prior content — and whenever the run completes
the quarantine file holds exactly the feeds quarantined during this run,
so previously quarantined feeds do not accumulate. -/
theorem quarantine_file_fresh (i : RunInput) (q1 q2 : List String) :
    mainRun i q1 = mainRun i q2 ∧
    (quarantineFileOf (mainRun i q1) = none ∨
      quarantineFileOf (mainRun i q1) =
        some (runFeeds i.fetch i.callModel i.numArticles i.feeds).removedFeeds) := by
  refine ⟨rfl, ?_⟩
  unfold mainRun
  cases ensureModelAvailable i.probe i.pull with
  | error u => exact Or.inl rfl
  | ok u =>
    cases hf : i.feeds.isEmpty with
    | true => exact Or.inl (by simp [hf, quarantineFileOf])
    | false =>
      cases ht : i.ttsEnabled with
      | true =>
        cases hs : i.ttsSuccess with
        | true => exact Or.inr (by simp [hf, ht, hs, quarantineFileOf])
        | false => exact Or.inr (by simp [hf, ht, hs, quarantineFileOf])
      | false => exact Or.inr (by simp [hf, ht, quarantineFileOf])

/- ---------------------------------------------------------------------
   C10: the narration starts with the date header.
   --------------------------------------------------------------------- -/

/-- C10: whenever text-to-speech is enabled, either the run aborts before
any output or the narration handed to the audio renderer begins with
"News for <Weekday, Month DD, YYYY>:" followed by a blank line, prepended
to the entry-derived narration. -/
theorem narration_begins_with_header (i : RunInput) (q : List String)
    (ht : i.ttsEnabled = true) :
    mainRun i q = .error .modelUnavailable ∨ mainRun i q = .error .noFeeds ∨
      ∃ rest, narrationOf (mainRun i q) =
        some ("News for " ++ formatDateLong i.date ++ ":\n\n" ++ rest) := by
  unfold mainRun
  cases ensureModelAvailable i.probe i.pull with
  | error u => exact Or.inl rfl
  | ok u =>
    cases hf : i.feeds.isEmpty with
    | true => exact Or.inr (Or.inl (by simp [hf]))
    | false =>
      refine Or.inr (Or.inr ⟨String.intercalate "\n"
        ((runFeeds i.fetch i.callModel i.numArticles i.feeds).ttsSummaries.map stripMarkdown),
        ?_⟩)
      cases hs : i.ttsSuccess with
      | true => simp [hf, ht, hs, narrationOf, buildNarration]
      | false => simp [hf, ht, hs, narrationOf, buildNarration]

/-- C10 witness: a completed text-to-speech run whose narration carries
the date header. -/
theorem narration_begins_with_header_witness :
    iC10.ttsEnabled = true ∧
      (mainRun iC10 [] = .error .modelUnavailable ∨ mainRun iC10 [] = .error .noFeeds ∨
        ∃ rest, narrationOf (mainRun iC10 []) =
          some ("News for " ++ formatDateLong iC10.date ++ ":\n\n" ++ rest)) :=
  ⟨rfl, narration_begins_with_header iC10 [] rfl⟩

end OllamaFeedSummarizer
